import Mathlib

/-!
Verification of the AgroKoz wheat-grain detection server core
(`src/ml-server/server.py`): class-label lookup, statistics aggregation,
quality grading, batch processing, and the loss-per-hectare formula
documented in the module docstring.

Real-valued quantities are modelled exactly as rationals (`ℚ`); Python's
`round(x, 2)` (round half to even) is modelled by `round2`.
-/

namespace Server

/-- The `CLASS_NAMES` dict (server.py lines 103-107), as a lookup returning
`none` for a missing key (a plain `CLASS_NAMES[k]` on a missing key raises
`KeyError`, i.e. hits the `none` case). -/
def CLASS_NAMES : Int → Option String
  | 0 => some "good"
  | 1 => some "bad"
  | 2 => some "impurity"
  | _ => none

/-- `CLASS_NAMES.get(class_id, f"unknown_" + str(class_id))` as used by
`detect_grains` (line 223): total lookup with the `unknown_<id>` fallback. -/
def classLabel (class_id : Int) : String :=
  (CLASS_NAMES class_id).getD ("unknown_" ++ toString class_id)

/-- A normalized detection record; only the fields the statistics path
reads (`d["class"]`) plus its identifiers. -/
structure Detection where
  id : Nat
  class_id : Int
  label : String
deriving DecidableEq

/-- `sum(1 for d in detections if d["class"] == "good")` (line 240). -/
def good_count (dets : List Detection) : Nat :=
  dets.countP (fun d => d.label == "good")

/-- `sum(1 for d in detections if d["class"] == "bad")` (line 241). -/
def bad_count (dets : List Detection) : Nat :=
  dets.countP (fun d => d.label == "bad")

/-- `sum(1 for d in detections if d["class"] == "impurity")` (line 242). -/
def impurity_count (dets : List Detection) : Nat :=
  dets.countP (fun d => d.label == "impurity")

/-- `quality_percentage = (good_count / total_count * 100) if total_count > 0
else 0` (line 246), exact (unrounded). -/
def quality_raw (dets : List Detection) : ℚ :=
  if 0 < dets.length then (good_count dets : ℚ) / (dets.length : ℚ) * 100 else 0

/-- Round half to even to the nearest integer (Python's `round`). -/
def roundHalfEven (x : ℚ) : Int :=
  if x - (⌊x⌋ : ℚ) < 1 / 2 then ⌊x⌋
  else if 1 / 2 < x - (⌊x⌋ : ℚ) then ⌊x⌋ + 1
  else if ⌊x⌋ % 2 = 0 then ⌊x⌋ else ⌊x⌋ + 1

/-- Python's `round(x, 2)`. -/
def round2 (x : ℚ) : ℚ :=
  (roundHalfEven (x * 100) : ℚ) / 100

/-- `get_quality_grade` (server.py lines 425-436). The labels are the
source's literal strings; the spec renders them in English with the same
letter: "Отлично (A)" = "Excellent (A)", "Хорошо (B)" = "Good (B)",
"Удовлетворительно (C)" = "Satisfactory (C)", "Плохо (D)" = "Poor (D)",
"Очень плохо (F)" = "Very Poor (F)". -/
def get_quality_grade (percentage : ℚ) : String :=
  if percentage ≥ 95 then "Отлично (A)"
  else if percentage ≥ 85 then "Хорошо (B)"
  else if percentage ≥ 75 then "Удовлетворительно (C)"
  else if percentage ≥ 60 then "Плохо (D)"
  else "Очень плохо (F)"

/-- The `statistics` dict built by `detect_grains` (lines 248-255):
`quality_percentage` is the rounded value, `quality_grade` is computed
from the unrounded `quality_percentage` variable. -/
structure Statistics where
  total_grains : Nat
  good : Nat
  bad : Nat
  impurity : Nat
  quality_percentage : ℚ
  quality_grade : String
deriving DecidableEq

/-- The statistics aggregation of `detect_grains` (lines 240-255). -/
def statistics (dets : List Detection) : Statistics :=
  { total_grains := dets.length
    good := good_count dets
    bad := bad_count dets
    impurity := impurity_count dets
    quality_percentage := round2 (quality_raw dets)
    quality_grade := get_quality_grade (quality_raw dets) }

/-- Rank of a grade label under F < D < C < B < A. -/
def gradeRank (g : String) : Nat :=
  if g = "Отлично (A)" then 4
  else if g = "Хорошо (B)" then 3
  else if g = "Удовлетворительно (C)" then 2
  else if g = "Плохо (D)" then 1
  else 0

/-- Modelled from the spec: the Loss Estimator (spec section 4.4 and the
server module docstring, lines 14-45) has no executable implementation in
the repository - only the docstring formula. One-line formula
`loss = N * W1000 * 10 / S` with InvalidParameter on `S <= 0`, `N < 0` or
`W1000 < 0`, never silently corrected. -/
def loss (N W1000 S : ℚ) : Except String ℚ :=
  if S ≤ 0 ∨ N < 0 ∨ W1000 < 0 then Except.error "InvalidParameter"
  else Except.ok (N * W1000 * 10 / S)

/-- Docstring step 1 (line 22): `W_photo = (N * W1000) / 1000` grams. -/
def loss_step1 (N W1000 : ℚ) : ℚ := N * W1000 / 1000

/-- Docstring step 2 (line 28): density = `W_photo / S` grams per m². -/
def loss_step2 (N W1000 S : ℚ) : ℚ := loss_step1 N W1000 / S

/-- Docstring step 3 (line 34): loss = `density * 10000 / 1000` kg/ha. -/
def loss_step3 (N W1000 S : ℚ) : ℚ := loss_step2 N W1000 S * 10000 / 1000

/-- Docstring one-line formula (line 40): `N * W1000 * 10 / S`. -/
def loss_oneline (N W1000 S : ℚ) : ℚ := N * W1000 * 10 / S

/-- An uploaded image file, as the batch endpoint sees it. -/
structure UploadFile where
  filename : String
  contents : List Nat
deriving DecidableEq

/-- One entry of the `results` list built by `batch_detect`
(lines 467-484): the statistics dict of a successful image. -/
structure BatchStats where
  total : Nat
  good : Nat
  bad : Nat
  impurity : Nat
  quality_percentage : ℚ
deriving DecidableEq

/-- A per-image result record: `success: True` with statistics, or
`success: False` with the error message (lines 467-484). -/
inductive BatchRecord where
  | ok (filename : String) (stats : BatchStats)
  | err (filename : String) (error : String)
deriving DecidableEq

/-- The `success` field of a batch record. -/
def BatchRecord.success : BatchRecord → Bool
  | .ok .. => true
  | .err .. => false

/-- The statistics computed inside the batch loop from the predicted class
ids (lines 461-476): counts by raw class id, quality rounded to 2 decimals. -/
def batchStats (cls : List Int) : BatchStats :=
  { total := cls.length
    good := cls.countP (· == 0)
    bad := cls.countP (· == 1)
    impurity := cls.countP (· == 2)
    quality_percentage :=
      round2 (if 0 < cls.length then (cls.countP (· == 0) : ℚ) / (cls.length : ℚ) * 100 else 0) }

/-- One iteration of the batch loop (lines 449-484): the whole body runs
under `try`; any failure of read/decode/predict (abstracted as `pipe`
returning `Except.error`) is caught and recorded, and the loop continues. -/
def batch_item (pipe : UploadFile → Except String (List Int)) (file : UploadFile) :
    BatchRecord :=
  match pipe file with
  | Except.ok cls => BatchRecord.ok file.filename (batchStats cls)
  | Except.error e => BatchRecord.err file.filename e

/-- The `results` list accumulated by the `batch_detect` loop. -/
def batch_results (pipe : UploadFile → Except String (List Int))
    (files : List UploadFile) : List BatchRecord :=
  files.map (batch_item pipe)

/-- The `/batch-detect` response (lines 486-490). -/
structure BatchResponse where
  success : Bool
  processed : Nat
  results : List BatchRecord
deriving DecidableEq

/-- The `batch_detect` endpoint (lines 439-490), with the external
read/decode/predict pipeline abstracted as `pipe`. -/
def batch_detect (pipe : UploadFile → Except String (List Int))
    (files : List UploadFile) : BatchResponse :=
  { success := true
    processed := files.length
    results := batch_results pipe files }

/-- Evaluation helper: when the fractional part is below one half,
`roundHalfEven` rounds down. -/
lemma roundHalfEven_eq_down {x : ℚ} {f : Int} (hf : ⌊x⌋ = f) (h : x - (f : ℚ) < 1 / 2) :
    roundHalfEven x = f := by
  unfold roundHalfEven
  rw [hf, if_pos h]

/-- Evaluation helper: when the fractional part is above one half,
`roundHalfEven` rounds up. -/
lemma roundHalfEven_eq_up {x : ℚ} {f : Int} (hf : ⌊x⌋ = f) (h : 1 / 2 < x - (f : ℚ)) :
    roundHalfEven x = f + 1 := by
  unfold roundHalfEven
  rw [hf, if_neg (by linarith), if_pos h]

/-- `round(0, 2) = 0`. -/
lemma round2_zero : round2 0 = 0 := by
  have h : roundHalfEven 0 = 0 :=
    roundHalfEven_eq_down (by simp) (by norm_num)
  simp [round2, h]

/-- Claim C1: the Loss Estimator returns `N * W1000 * 10 / S` whenever
`N ≥ 0`, `W1000 ≥ 0` and `S > 0`, and fails with an InvalidParameter error
exactly when `S ≤ 0`, `N < 0` or `W1000 < 0` (modelled from the spec: the
estimator has no executable implementation in the repository). -/
theorem loss_contract (N W1000 S : ℚ) :
    (0 ≤ N → 0 ≤ W1000 → 0 < S → loss N W1000 S = Except.ok (N * W1000 * 10 / S)) ∧
    (loss N W1000 S = Except.error "InvalidParameter" ↔ S ≤ 0 ∨ N < 0 ∨ W1000 < 0) := by
  constructor
  · intro hN hW hS
    have hcond : ¬(S ≤ 0 ∨ N < 0 ∨ W1000 < 0) := by
      push_neg
      exact ⟨hS, hN, hW⟩
    simp [loss, hcond]
  · constructor
    · intro h
      by_contra hc
      simp [loss, hc] at h
    · intro h
      simp [loss, h]

/-- Witness for C1: valid parameters `N=25, W1000=40, S=0.1` give
`100000` kg/ha, and `S = 0` is rejected as InvalidParameter. -/
theorem loss_contract_witness :
    ((0 : ℚ) ≤ 25 ∧ (0 : ℚ) ≤ 40 ∧ (0 : ℚ) < 1 / 10) ∧
    loss 25 40 (1 / 10) = Except.ok 100000 ∧
    loss 25 40 0 = Except.error "InvalidParameter" := by
  refine ⟨⟨by norm_num, by norm_num, by norm_num⟩, ?_, ?_⟩
  · have h := (loss_contract 25 40 (1 / 10)).1 (by norm_num) (by norm_num) (by norm_num)
    have hval : (25 * 40 * 10 / (1 / 10) : ℚ) = 100000 := by norm_num
    rw [h, hval]
  · exact (loss_contract 25 40 0).2.mpr (Or.inl le_rfl)

/-- Counterexample for C2: at `N=25, W1000=40, S=0.1` the three-step
derivation yields 100 (the docstring's own worked example) while the
one-line formula yields 100000 - they are not equal. -/
theorem loss_steps_mismatch_cex :
    loss_step3 25 40 (1 / 10) = 100 ∧
    loss_oneline 25 40 (1 / 10) = 100000 ∧
    ¬ loss_step3 25 40 (1 / 10) = loss_oneline 25 40 (1 / 10) := by
  refine ⟨?_, ?_, ?_⟩ <;>
    norm_num [loss_step3, loss_step2, loss_step1, loss_oneline]

/-- Claim C2 (amended): with no extra rounding between steps, the
three-step derivation equals the one-line formula divided by 1000
(`N * W1000 / (100 * S)`), not the one-line formula itself; the two differ
by a constant factor of 1000. -/
theorem loss_steps_eq_oneline_div_1000 (N W1000 S : ℚ) :
    loss_step3 N W1000 S = loss_oneline N W1000 S / 1000 := by
  unfold loss_step3 loss_step2 loss_step1 loss_oneline
  ring

/-- Claim C3: `detect_grains` normalizes an unknown class id 5 to the label
`unknown_5` via `CLASS_NAMES.get`, but `detect_with_visualization` (line
324) and `draw_detections` (line 394) index `CLASS_NAMES[class_id]`
directly, which has no entry for 5 (`none` here = `KeyError`, surfacing as
an HTTP 500): the code crashes on unknown ids in those endpoints. -/
theorem unknown_class_label_bug :
    classLabel 5 = "unknown_5" ∧ CLASS_NAMES 5 = none := by
  constructor <;> rfl

/-- Claim C4: the grader is total on ℚ and returns "Отлично (A)"
("Excellent (A)") for p ≥ 95, "Хорошо (B)" ("Good (B)") for 85 ≤ p < 95,
"Удовлетворительно (C)" ("Satisfactory (C)") for 75 ≤ p < 85, "Плохо (D)"
("Poor (D)") for 60 ≤ p < 75, and "Очень плохо (F)" ("Very Poor (F)")
otherwise; every boundary belongs to the higher grade. -/
theorem get_quality_grade_cases (p : ℚ) :
    (95 ≤ p → get_quality_grade p = "Отлично (A)") ∧
    (85 ≤ p → p < 95 → get_quality_grade p = "Хорошо (B)") ∧
    (75 ≤ p → p < 85 → get_quality_grade p = "Удовлетворительно (C)") ∧
    (60 ≤ p → p < 75 → get_quality_grade p = "Плохо (D)") ∧
    (p < 60 → get_quality_grade p = "Очень плохо (F)") := by
  unfold get_quality_grade
  refine ⟨?_, ?_, ?_, ?_, ?_⟩ <;> intros <;> split_ifs <;> first | rfl | linarith

/-- Witness for C4: the boundary value 95 gets the higher grade A. -/
theorem get_quality_grade_cases_witness :
    (95 : ℚ) ≤ 95 ∧ get_quality_grade 95 = "Отлично (A)" :=
  ⟨le_rfl, (get_quality_grade_cases 95).1 le_rfl⟩

/-- Claim C5: the empty detection list is not an error path - it yields
total 0, all counts 0, quality_percentage 0, and grade "Очень плохо (F)"
("Very Poor (F)"). -/
theorem empty_detections_statistics :
    statistics [] =
      { total_grains := 0
        good := 0
        bad := 0
        impurity := 0
        quality_percentage := 0
        quality_grade := "Очень плохо (F)" } := by
  have hraw : quality_raw ([] : List Detection) = 0 := rfl
  have hgrade : get_quality_grade 0 = "Очень плохо (F)" := by
    norm_num [get_quality_grade]
  simp [statistics, good_count, bad_count, impurity_count, hraw, round2_zero, hgrade]

/-- The three class counters together count exactly the detections whose
label matches one of the three class names. -/
lemma counts_eq_countP_named (dets : List Detection) :
    good_count dets + bad_count dets + impurity_count dets
      = dets.countP (fun d => d.label == "good" || d.label == "bad" || d.label == "impurity") := by
  induction dets with
  | nil => rfl
  | cons d l ih =>
    simp only [good_count, bad_count, impurity_count, List.countP_cons] at *
    by_cases hg : d.label = "good" <;> by_cases hb : d.label = "bad" <;>
      by_cases hi : d.label = "impurity" <;>
      simp only [hg, hb, hi, beq_iff_eq, beq_self_eq_true] <;>
      simp_all <;> omega

/-- Claim C6: `good + bad + impurity ≤ total_grains`, with equality exactly
when every detection carries one of the three known labels; an
unknown-labeled detection counts in the total but in none of the buckets. -/
theorem class_counts_partition (dets : List Detection) :
    good_count dets + bad_count dets + impurity_count dets ≤ dets.length ∧
    (good_count dets + bad_count dets + impurity_count dets = dets.length ↔
      ∀ d ∈ dets, d.label = "good" ∨ d.label = "bad" ∨ d.label = "impurity") := by
  rw [counts_eq_countP_named]
  constructor
  · exact List.countP_le_length _
  · rw [List.countP_eq_length]
    simp only [Bool.or_eq_true, beq_iff_eq, or_assoc]

/-- A concrete good detection, used by witnesses. -/
def dGood : Detection := { id := 0, class_id := 0, label := "good" }

/-- A concrete bad detection, used by witnesses. -/
def dBad : Detection := { id := 1, class_id := 1, label := "bad" }

/-- A concrete unknown-class detection, used by witnesses. -/
def dUnknown : Detection := { id := 2, class_id := 5, label := "unknown_5" }

/-- Witness for C6: on a list with one good, one bad and one unknown label
the three buckets never exceed the total of 3. -/
theorem class_counts_partition_witness :
    good_count [dGood, dBad, dUnknown] + bad_count [dGood, dBad, dUnknown]
      + impurity_count [dGood, dBad, dUnknown] ≤ 3 :=
  (class_counts_partition [dGood, dBad, dUnknown]).1

/-- Claim C7: the aggregator is order-independent - statistics of any two
lists that are permutations of one another are identical. -/
theorem statistics_perm_invariant (l1 l2 : List Detection) (h : l1.Perm l2) :
    statistics l1 = statistics l2 := by
  have hlen := h.length_eq
  have hg := h.countP_eq (fun d => d.label == "good")
  have hb := h.countP_eq (fun d => d.label == "bad")
  have hi := h.countP_eq (fun d => d.label == "impurity")
  simp only [statistics, good_count, bad_count, impurity_count, quality_raw, hlen, hg, hb, hi]

/-- Witness for C7: swapping two detections leaves the statistics equal. -/
theorem statistics_perm_invariant_witness :
    ([dGood, dBad].Perm [dBad, dGood]) ∧
    statistics [dGood, dBad] = statistics [dBad, dGood] := by
  have hp : ([dGood, dBad].Perm [dBad, dGood]) := List.Perm.swap _ _ _
  exact ⟨hp, statistics_perm_invariant _ _ hp⟩

/-- The rank of the grade assigned to a percentage, as a threshold ladder. -/
lemma gradeRank_get_quality_grade (p : ℚ) :
    gradeRank (get_quality_grade p)
      = if 95 ≤ p then 4 else if 85 ≤ p then 3 else if 75 ≤ p then 2
        else if 60 ≤ p then 1 else 0 := by
  unfold get_quality_grade
  split_ifs with h1 h2 h3 h4 <;> rfl

/-- Claim C8: the grader is monotonic - a lower percentage never receives a
better grade under F < D < C < B < A. -/
theorem grade_monotone (p1 p2 : ℚ) (h : p1 ≤ p2) :
    gradeRank (get_quality_grade p1) ≤ gradeRank (get_quality_grade p2) := by
  rw [gradeRank_get_quality_grade, gradeRank_get_quality_grade]
  split_ifs <;> first | omega | linarith

/-- Witness for C8: 50 ≤ 97 and the rank at 50 is at most the rank at 97. -/
theorem grade_monotone_witness :
    (50 : ℚ) ≤ 97 ∧
    gradeRank (get_quality_grade 50) ≤ gradeRank (get_quality_grade 97) :=
  ⟨by norm_num, grade_monotone 50 97 (by norm_num)⟩

/-- Claim C9: the batch loop yields exactly one record per input image in
order; an image whose processing fails contributes a `success = false`
record carrying the error message, and the remaining images are still
processed normally. -/
theorem batch_error_isolated (pipe : UploadFile → Except String (List Int))
    (pre post : List UploadFile) (bad : UploadFile) (e : String)
    (h : pipe bad = Except.error e) :
    (batch_detect pipe (pre ++ bad :: post)).results
        = batch_results pipe pre
          ++ BatchRecord.err bad.filename e :: batch_results pipe post
    ∧ (batch_detect pipe (pre ++ bad :: post)).results.length
        = (pre ++ bad :: post).length
    ∧ (BatchRecord.err bad.filename e).success = false
    ∧ (batch_detect pipe (pre ++ bad :: post)).processed
        = (pre ++ bad :: post).length := by
  refine ⟨?_, ?_, rfl, rfl⟩
  · simp [batch_detect, batch_results, batch_item, h]
  · simp [batch_detect, batch_results]

/-- A concrete image file, used by the C9 witness. -/
def fileA : UploadFile := { filename := "a.jpg", contents := [1] }

/-- A concrete image file whose processing fails, used by the C9 witness. -/
def fileB : UploadFile := { filename := "b.jpg", contents := [2] }

/-- A concrete image file, used by the C9 witness. -/
def fileC : UploadFile := { filename := "c.jpg", contents := [3] }

/-- A concrete processing pipeline that fails on `fileB` only. -/
def pipeEx : UploadFile → Except String (List Int) :=
  fun f => if f.filename = "b.jpg" then Except.error "decode failed" else Except.ok [0, 1]

/-- Witness for C9: in a three-image batch whose middle image fails, the
failing image yields an error record and both neighbours are processed. -/
theorem batch_error_isolated_witness :
    pipeEx fileB = Except.error "decode failed" ∧
    ((batch_detect pipeEx ([fileA] ++ fileB :: [fileC])).results
        = batch_results pipeEx [fileA]
          ++ BatchRecord.err fileB.filename "decode failed" :: batch_results pipeEx [fileC]
      ∧ (batch_detect pipeEx ([fileA] ++ fileB :: [fileC])).results.length
          = ([fileA] ++ fileB :: [fileC]).length
      ∧ (BatchRecord.err fileB.filename "decode failed").success = false
      ∧ (batch_detect pipeEx ([fileA] ++ fileB :: [fileC])).processed
          = ([fileA] ++ fileB :: [fileC]).length) := by
  have h : pipeEx fileB = Except.error "decode failed" := rfl
  exact ⟨h, batch_error_isolated pipeEx [fileA] [fileC] fileB "decode failed" h⟩

/-- A detection list whose exact quality percentage `375200/5003 ≈ 74.995`
lies just below the 75 threshold: 3752 good among 5003. -/
def roundingDemo : List Detection :=
  List.replicate 3752 dGood ++ List.replicate 1251 dBad

/-- The demo list has 3752 good detections. -/
lemma good_count_roundingDemo : good_count roundingDemo = 3752 := by
  rw [good_count, roundingDemo, List.countP_append, List.countP_replicate,
    List.countP_replicate]
  have h1 : (dGood.label == "good") = true := rfl
  have h2 : (dBad.label == "good") = false := rfl
  rw [h1, h2]
  norm_num

/-- The demo list has 5003 detections in total. -/
lemma length_roundingDemo : roundingDemo.length = 5003 := by
  rw [roundingDemo, List.length_append, List.length_replicate, List.length_replicate]

/-- The exact (unrounded) quality percentage of the demo list. -/
lemma quality_raw_roundingDemo : quality_raw roundingDemo = 375200 / 5003 := by
  rw [quality_raw, length_roundingDemo, good_count_roundingDemo]
  norm_num

/-- The scaled demo percentage has floor 7499. -/
lemma floor_roundingDemo : ⌊(37520000 / 5003 : ℚ)⌋ = 7499 := by
  rw [Int.floor_eq_iff]
  constructor <;> norm_num

/-- The demo percentage rounds (half to even) to 75.00. -/
lemma roundHalfEven_roundingDemo : roundHalfEven ((375200 / 5003 : ℚ) * 100) = 7500 := by
  have hx : (375200 / 5003 : ℚ) * 100 = 37520000 / 5003 := by norm_num
  rw [hx]
  have h := roundHalfEven_eq_up floor_roundingDemo (by norm_num)
  simpa using h

/-- Claim C10: the reported `quality_percentage` is the 2-decimal rounding
of the exact quotient while `quality_grade` is computed from the exact
quotient; on the demo list the rounded percentage equals the 75 threshold
while the grade is "Плохо (D)" ("Poor (D)"), one grade below the
"Удовлетворительно (C)" ("Satisfactory (C)") that 75 itself would get. -/
theorem rounded_percentage_vs_grade :
    (statistics roundingDemo).quality_percentage = 75 ∧
    (statistics roundingDemo).quality_grade = "Плохо (D)" ∧
    quality_raw roundingDemo < 75 ∧
    get_quality_grade 75 = "Удовлетворительно (C)" ∧
    (statistics roundingDemo).quality_grade
      = get_quality_grade (quality_raw roundingDemo) := by
  have hproj1 : (statistics roundingDemo).quality_percentage
      = round2 (quality_raw roundingDemo) := by
    simp only [statistics]
  have hproj2 : (statistics roundingDemo).quality_grade
      = get_quality_grade (quality_raw roundingDemo) := by
    simp only [statistics]
  have hq := quality_raw_roundingDemo
  refine ⟨?_, ?_, ?_, ?_, hproj2⟩
  · rw [hproj1, hq]
    unfold round2
    rw [roundHalfEven_roundingDemo]
    norm_num
  · rw [hproj2, hq]
    norm_num [get_quality_grade]
  · rw [hq]
    norm_num
  · norm_num [get_quality_grade]

end Server
